import Mathlib

/-!
Verification of the Verdict Policy Engine of the sentinel-agent repository.

The engine is the pure function `calculateVerdict` in `src/app/page.tsx`
(lines 84-153, duplicated verbatim at lines 915-984 of the concatenated
second document).  Numbers are embedded as exact rationals: every literal
of the source (`0.25`, `1.5`, ...) denotes the same rational here, and the
arithmetic of the source is the corresponding exact arithmetic on `ℚ`.
-/

/-- The six-dimension risk record (`interface RiskScores`, page.tsx 35-42). -/
structure RiskScores where
  irreversibility : ℚ
  external_impact : ℚ
  financial : ℚ
  safety : ℚ
  missing_context : ℚ
  policy_violation : ℚ
deriving DecidableEq, Repr

/-- The five-way verdict enumeration (`type VerdictType`, page.tsx 58). -/
inductive VerdictType where
  | APPROVE
  | APPROVE_WITH_NOTICE
  | ASK_FOR_CLARIFICATION
  | MODIFY
  | BLOCK
deriving DecidableEq, Repr

/-- The engine's output record (`interface Verdict`, page.tsx 60-65). -/
structure Verdict where
  type : VerdictType
  confidence : ℚ
  weightedScore : ℚ
  triggeredRules : List String
deriving DecidableEq, Repr

/-- The weighted-score expression of page.tsx 119-125 (the `const
weightedScore` binding inside `calculateVerdict`). -/
def weightedScoreOf (scores : RiskScores) : ℚ :=
  scores.irreversibility * 0.25 +
  scores.external_impact * 0.25 +
  scores.financial * 0.15 +
  scores.safety * 0.2 +
  scores.missing_context * 0.1 +
  scores.policy_violation * 0.05

/-- The confidence expression of page.tsx 128: `Math.max(0, Math.min(100,
100 - (weightedScore / 3) * 100))`. -/
def confidenceOf (weightedScore : ℚ) : ℚ :=
  max 0 (min 100 (100 - weightedScore / 3 * 100))

/-- The decision engine `calculateVerdict` of page.tsx 84-153, translated
branch for branch: three hard overrides, then the weighted score, the
confidence, and the threshold ladder, first match winning. -/
def calculateVerdict (scores : RiskScores) : Verdict :=
  if scores.safety ≥ 3 then
    { type := VerdictType.BLOCK, confidence := 100, weightedScore := 0,
      triggeredRules := ["CRITICAL: Safety score ≥ 3"] }
  else if scores.irreversibility ≥ 3 ∧ scores.external_impact ≥ 2 then
    { type := VerdictType.BLOCK, confidence := 100, weightedScore := 0,
      triggeredRules := ["CRITICAL: Irreversibility ≥ 3 AND External Impact ≥ 2"] }
  else if scores.policy_violation ≥ 3 then
    { type := VerdictType.BLOCK, confidence := 100, weightedScore := 0,
      triggeredRules := ["CRITICAL: Policy Violation ≥ 3"] }
  else
    let weightedScore := weightedScoreOf scores
    let confidence := confidenceOf weightedScore
    if weightedScore < 1.0 then
      { type := VerdictType.APPROVE, confidence := confidence,
        weightedScore := weightedScore, triggeredRules := ["Weighted score < 1.0"] }
    else if weightedScore < 1.5 then
      { type := VerdictType.APPROVE_WITH_NOTICE, confidence := confidence,
        weightedScore := weightedScore, triggeredRules := ["Weighted score < 1.5"] }
    else if scores.missing_context ≥ 2 then
      { type := VerdictType.ASK_FOR_CLARIFICATION, confidence := confidence,
        weightedScore := weightedScore, triggeredRules := ["Missing Context ≥ 2"] }
    else if weightedScore < 2.0 then
      { type := VerdictType.MODIFY, confidence := confidence,
        weightedScore := weightedScore, triggeredRules := ["Weighted score < 2.0"] }
    else
      { type := VerdictType.BLOCK, confidence := confidence,
        weightedScore := weightedScore, triggeredRules := ["Weighted score ≥ 2.0"] }

/-- A single risk dimension is well formed when it is one of the four
integer grades 0, 1, 2, 3 that the spec's data model allows. -/
def dimOk (x : ℚ) : Prop := x = 0 ∨ x = 1 ∨ x = 2 ∨ x = 3

instance (x : ℚ) : Decidable (dimOk x) := by
  unfold dimOk; infer_instance

/-- A `RiskScores` record is well formed when all six dimensions are
integer grades in [0, 3]. -/
def WellFormed (s : RiskScores) : Prop :=
  dimOk s.irreversibility ∧ dimOk s.external_impact ∧ dimOk s.financial ∧
  dimOk s.safety ∧ dimOk s.missing_context ∧ dimOk s.policy_violation

instance (s : RiskScores) : Decidable (WellFormed s) := by
  unfold WellFormed; infer_instance

/-- No hard override fires on `s`: the negations of the three override
guards of page.tsx 88, 98 and 108. -/
def NoOverride (s : RiskScores) : Prop :=
  ¬ s.safety ≥ 3 ∧ ¬ (s.irreversibility ≥ 3 ∧ s.external_impact ≥ 2) ∧
  ¬ s.policy_violation ≥ 3

instance (s : RiskScores) : Decidable (NoOverride s) := by
  unfold NoOverride; infer_instance

lemma dimOk.nonneg {x : ℚ} (h : dimOk x) : 0 ≤ x := by
  rcases h with h | h | h | h <;> rw [h] <;> norm_num

lemma dimOk.le_three {x : ℚ} (h : dimOk x) : x ≤ 3 := by
  rcases h with h | h | h | h <;> rw [h] <;> norm_num

lemma dimOk.le_two_of_lt_three {x : ℚ} (h : dimOk x) (h3 : ¬ x ≥ 3) : x ≤ 2 := by
  rcases h with h | h | h | h <;> rw [h] at h3 ⊢ <;> norm_num at h3 ⊢

lemma dimOk.le_one_of_lt_two {x : ℚ} (h : dimOk x) (h2 : ¬ x ≥ 2) : x ≤ 1 := by
  rcases h with h | h | h | h <;> rw [h] at h2 ⊢ <;> norm_num at h2 ⊢

/-- The second, textually duplicated copy of the decision engine
(page.tsx 915-984, inside the second concatenated document), translated
independently from that occurrence, with its weighted score and confidence
bindings spelled out inline as in the source. -/
def calculateVerdict2 (scores : RiskScores) : Verdict :=
  if scores.safety ≥ 3 then
    { type := VerdictType.BLOCK, confidence := 100, weightedScore := 0,
      triggeredRules := ["CRITICAL: Safety score ≥ 3"] }
  else if scores.irreversibility ≥ 3 ∧ scores.external_impact ≥ 2 then
    { type := VerdictType.BLOCK, confidence := 100, weightedScore := 0,
      triggeredRules := ["CRITICAL: Irreversibility ≥ 3 AND External Impact ≥ 2"] }
  else if scores.policy_violation ≥ 3 then
    { type := VerdictType.BLOCK, confidence := 100, weightedScore := 0,
      triggeredRules := ["CRITICAL: Policy Violation ≥ 3"] }
  else
    let weightedScore :=
      scores.irreversibility * 0.25 +
      scores.external_impact * 0.25 +
      scores.financial * 0.15 +
      scores.safety * 0.2 +
      scores.missing_context * 0.1 +
      scores.policy_violation * 0.05
    let confidence := max 0 (min 100 (100 - weightedScore / 3 * 100))
    if weightedScore < 1.0 then
      { type := VerdictType.APPROVE, confidence := confidence,
        weightedScore := weightedScore, triggeredRules := ["Weighted score < 1.0"] }
    else if weightedScore < 1.5 then
      { type := VerdictType.APPROVE_WITH_NOTICE, confidence := confidence,
        weightedScore := weightedScore, triggeredRules := ["Weighted score < 1.5"] }
    else if scores.missing_context ≥ 2 then
      { type := VerdictType.ASK_FOR_CLARIFICATION, confidence := confidence,
        weightedScore := weightedScore, triggeredRules := ["Missing Context ≥ 2"] }
    else if weightedScore < 2.0 then
      { type := VerdictType.MODIFY, confidence := confidence,
        weightedScore := weightedScore, triggeredRules := ["Weighted score < 2.0"] }
    else
      { type := VerdictType.BLOCK, confidence := confidence,
        weightedScore := weightedScore, triggeredRules := ["Weighted score ≥ 2.0"] }

/-- On the no-override path, `calculateVerdict` reports the weighted score
and the confidence computed by the source formulas, whatever ladder branch
it takes. -/
lemma calculateVerdict_noOverride_fields (s : RiskScores) (h : NoOverride s) :
    (calculateVerdict s).weightedScore = weightedScoreOf s ∧
    (calculateVerdict s).confidence = confidenceOf (weightedScoreOf s) := by
  obtain ⟨h1, h2, h3⟩ := h
  unfold calculateVerdict
  rw [if_neg h1, if_neg h2, if_neg h3]
  dsimp only
  split_ifs <;> exact ⟨rfl, rfl⟩

/-- Claim C1: for every well-formed `RiskScores` on which no hard override
fires, the verdict type follows the threshold ladder in fixed first-match
order with strict less-than boundaries: `weightedScore < 1.0` gives
APPROVE; `1.0 ≤ weightedScore < 1.5` gives APPROVE_WITH_NOTICE; when
`weightedScore ≥ 1.5` and `missing_context ≥ 2` the result is
ASK_FOR_CLARIFICATION no matter how high the weighted score is; otherwise
`1.5 ≤ weightedScore < 2.0` gives MODIFY and `weightedScore ≥ 2.0` gives
BLOCK (so exactly 1.0 gives APPROVE_WITH_NOTICE and exactly 2.0 gives
BLOCK). -/
theorem threshold_ladder_order (s : RiskScores) (hwf : WellFormed s)
    (h : NoOverride s) :
    (weightedScoreOf s < 1.0 → (calculateVerdict s).type = VerdictType.APPROVE) ∧
    (1.0 ≤ weightedScoreOf s → weightedScoreOf s < 1.5 →
      (calculateVerdict s).type = VerdictType.APPROVE_WITH_NOTICE) ∧
    (1.5 ≤ weightedScoreOf s → s.missing_context ≥ 2 →
      (calculateVerdict s).type = VerdictType.ASK_FOR_CLARIFICATION) ∧
    (1.5 ≤ weightedScoreOf s → s.missing_context < 2 → weightedScoreOf s < 2.0 →
      (calculateVerdict s).type = VerdictType.MODIFY) ∧
    (2.0 ≤ weightedScoreOf s → s.missing_context < 2 →
      (calculateVerdict s).type = VerdictType.BLOCK) := by
  obtain ⟨h1, h2, h3⟩ := h
  unfold calculateVerdict
  rw [if_neg h1, if_neg h2, if_neg h3]
  dsimp only
  refine ⟨?_, ?_, ?_, ?_, ?_⟩
  · intro ha
    split_ifs <;> first | rfl | (exfalso; linarith)
  · intro ha hb
    split_ifs <;> first | rfl | (exfalso; linarith)
  · intro ha hb
    split_ifs <;> first | rfl | (exfalso; linarith)
  · intro ha hb hc
    split_ifs <;> first | rfl | (exfalso; linarith)
  · intro ha hb
    split_ifs <;> first | rfl | (exfalso; linarith)

/-- Witness for claim C1: the all-zero record is well formed, fires no
override, has weighted score 0 < 1.0, and is classified APPROVE. -/
theorem threshold_ladder_order_witness :
    WellFormed (⟨0, 0, 0, 0, 0, 0⟩ : RiskScores) ∧
    NoOverride (⟨0, 0, 0, 0, 0, 0⟩ : RiskScores) ∧
    weightedScoreOf (⟨0, 0, 0, 0, 0, 0⟩ : RiskScores) < 1.0 ∧
    (calculateVerdict (⟨0, 0, 0, 0, 0, 0⟩ : RiskScores)).type = VerdictType.APPROVE :=
  ⟨by decide, by decide, by norm_num [weightedScoreOf],
    (threshold_ladder_order ⟨0, 0, 0, 0, 0, 0⟩ (by decide) (by decide)).1
      (by norm_num [weightedScoreOf])⟩

/-- Claim C2: whenever `safety ≥ 3`, the engine returns the safety-override
verdict: BLOCK with confidence 100, weighted score 0, and exactly one
triggered rule naming the safety override; no later rule is reached. -/
theorem safety_override_blocks (s : RiskScores) (h : s.safety ≥ 3) :
    calculateVerdict s =
      { type := VerdictType.BLOCK, confidence := 100, weightedScore := 0,
        triggeredRules := ["CRITICAL: Safety score ≥ 3"] } := by
  unfold calculateVerdict
  rw [if_pos h]

/-- Witness for claim C2 at safety exactly 3. -/
theorem safety_override_blocks_witness :
    (⟨0, 0, 0, 3, 0, 0⟩ : RiskScores).safety ≥ 3 ∧
    calculateVerdict (⟨0, 0, 0, 3, 0, 0⟩ : RiskScores) =
      { type := VerdictType.BLOCK, confidence := 100, weightedScore := 0,
        triggeredRules := ["CRITICAL: Safety score ≥ 3"] } :=
  ⟨by decide, safety_override_blocks ⟨0, 0, 0, 3, 0, 0⟩ (by decide)⟩

/-- Claim C3: the hard overrides are checked in the fixed order safety,
then irreversibility/external-impact, then policy: with `safety < 3`,
`irreversibility ≥ 3` and `external_impact ≥ 2` give BLOCK via the
irreversibility/external-impact rule; and when neither of those two
overrides matched, `policy_violation ≥ 3` gives BLOCK via the policy rule
(each with confidence 100, weighted score 0, one triggered rule). -/
theorem override_order_irreversibility_policy (s : RiskScores) :
    (¬ s.safety ≥ 3 → s.irreversibility ≥ 3 → s.external_impact ≥ 2 →
      calculateVerdict s =
        { type := VerdictType.BLOCK, confidence := 100, weightedScore := 0,
          triggeredRules := ["CRITICAL: Irreversibility ≥ 3 AND External Impact ≥ 2"] }) ∧
    (¬ s.safety ≥ 3 → ¬ (s.irreversibility ≥ 3 ∧ s.external_impact ≥ 2) →
      s.policy_violation ≥ 3 →
      calculateVerdict s =
        { type := VerdictType.BLOCK, confidence := 100, weightedScore := 0,
          triggeredRules := ["CRITICAL: Policy Violation ≥ 3"] }) := by
  constructor
  · intro h1 h2 h3
    unfold calculateVerdict
    rw [if_neg h1, if_pos ⟨h2, h3⟩]
  · intro h1 h2 h3
    unfold calculateVerdict
    rw [if_neg h1, if_neg h2, if_pos h3]

/-- Witness for claim C3: one concrete input per override branch. -/
theorem override_order_irreversibility_policy_witness :
    calculateVerdict (⟨3, 2, 0, 0, 0, 0⟩ : RiskScores) =
      { type := VerdictType.BLOCK, confidence := 100, weightedScore := 0,
        triggeredRules := ["CRITICAL: Irreversibility ≥ 3 AND External Impact ≥ 2"] } ∧
    calculateVerdict (⟨0, 0, 0, 0, 0, 3⟩ : RiskScores) =
      { type := VerdictType.BLOCK, confidence := 100, weightedScore := 0,
        triggeredRules := ["CRITICAL: Policy Violation ≥ 3"] } :=
  ⟨(override_order_irreversibility_policy ⟨3, 2, 0, 0, 0, 0⟩).1
      (by decide) (by decide) (by decide),
   (override_order_irreversibility_policy ⟨0, 0, 0, 0, 0, 3⟩).2
      (by decide) (by decide) (by decide)⟩

/-- Claim C4: on the no-override path the returned weighted score equals
`irr*0.25 + ext*0.25 + fin*0.15 + saf*0.2 + mis*0.1 + pol*0.05`, and the
returned confidence equals `clamp(100 - weightedScore/3*100, 0, 100)`,
which always lies in [0, 100]. -/
theorem noOverride_weighted_score_confidence (s : RiskScores)
    (hwf : WellFormed s) (h : NoOverride s) :
    (calculateVerdict s).weightedScore =
      s.irreversibility * 0.25 + s.external_impact * 0.25 + s.financial * 0.15 +
      s.safety * 0.2 + s.missing_context * 0.1 + s.policy_violation * 0.05 ∧
    (calculateVerdict s).confidence =
      max 0 (min 100 (100 - (calculateVerdict s).weightedScore / 3 * 100)) ∧
    0 ≤ (calculateVerdict s).confidence ∧
    (calculateVerdict s).confidence ≤ 100 := by
  obtain ⟨hw, hc⟩ := calculateVerdict_noOverride_fields s h
  refine ⟨?_, ?_, ?_, ?_⟩
  · rw [hw]; rfl
  · rw [hc, hw]; rfl
  · rw [hc]; exact le_max_left 0 _
  · rw [hc]; exact max_le (by norm_num) (min_le_left _ _)

/-- Witness for claim C4 at the all-zero record: confidence lands in
[0, 100] there. -/
theorem noOverride_weighted_score_confidence_witness :
    0 ≤ (calculateVerdict (⟨0, 0, 0, 0, 0, 0⟩ : RiskScores)).confidence ∧
    (calculateVerdict (⟨0, 0, 0, 0, 0, 0⟩ : RiskScores)).confidence ≤ 100 :=
  (noOverride_weighted_score_confidence ⟨0, 0, 0, 0, 0, 0⟩
    (by decide) (by decide)).2.2

/-- Claim C5: every evaluation, override or ladder, returns a
`triggeredRules` sequence with exactly one entry. -/
theorem triggeredRules_exactly_one (s : RiskScores) :
    (calculateVerdict s).triggeredRules.length = 1 := by
  unfold calculateVerdict
  dsimp only
  split_ifs <;> rfl

/-- Claim C6: the input with irreversibility 1, external impact 1,
financial 1, safety 0, missing context 3, policy violation 0 gets weighted
score exactly 0.95 and verdict APPROVE, despite missing context 3, because
the missing-context rule sits below the 1.0 and 1.5 thresholds in the
ladder. -/
theorem scenario_missing_context_approve :
    (calculateVerdict ⟨1, 1, 1, 0, 3, 0⟩).weightedScore = 0.95 ∧
    (calculateVerdict ⟨1, 1, 1, 0, 3, 0⟩).type = VerdictType.APPROVE := by
  constructor <;> norm_num [calculateVerdict, weightedScoreOf, confidenceOf]

/-- Claim C7: the engine is a pure total function of its argument: two
calls on identical inputs return identical verdicts. -/
theorem calculateVerdict_deterministic (s t : RiskScores) (h : s = t) :
    calculateVerdict s = calculateVerdict t := by rw [h]

/-- Witness for claim C7 at the all-zero record. -/
theorem calculateVerdict_deterministic_witness :
    calculateVerdict (⟨0, 0, 0, 0, 0, 0⟩ : RiskScores) =
      calculateVerdict (⟨0, 0, 0, 0, 0, 0⟩ : RiskScores) :=
  calculateVerdict_deterministic ⟨0, 0, 0, 0, 0, 0⟩ ⟨0, 0, 0, 0, 0, 0⟩ rfl

/-- Claim C8: the engine performs no range validation: a safety score of 5
satisfies the safety override's `≥ 3` test and yields the safety BLOCK
verdict, and the out-of-range record with financial 25 fires no override
yet produces a weighted score above 3. -/
theorem out_of_range_behavior (s : RiskScores) :
    (s.safety = 5 → calculateVerdict s =
      { type := VerdictType.BLOCK, confidence := 100, weightedScore := 0,
        triggeredRules := ["CRITICAL: Safety score ≥ 3"] }) ∧
    NoOverride (⟨0, 0, 25, 0, 0, 0⟩ : RiskScores) ∧
    (calculateVerdict (⟨0, 0, 25, 0, 0, 0⟩ : RiskScores)).weightedScore > 3 := by
  refine ⟨?_, by decide, ?_⟩
  · intro h5
    unfold calculateVerdict
    rw [if_pos (by rw [h5]; norm_num)]
  · norm_num [calculateVerdict, weightedScoreOf, confidenceOf]

/-- Witness for claim C8 at safety 5. -/
theorem out_of_range_behavior_witness :
    (⟨0, 0, 0, 5, 0, 0⟩ : RiskScores).safety = 5 ∧
    calculateVerdict (⟨0, 0, 0, 5, 0, 0⟩ : RiskScores) =
      { type := VerdictType.BLOCK, confidence := 100, weightedScore := 0,
        triggeredRules := ["CRITICAL: Safety score ≥ 3"] } :=
  ⟨rfl, (out_of_range_behavior ⟨0, 0, 0, 5, 0, 0⟩).1 rfl⟩

/-- Claim C9: on well-formed no-override input the weighted score never
exceeds 2.5 (the overrides exclude safety 3, policy 3, and irreversibility
3 together with external impact at least 2), hence confidence is at least
50/3 and the lower clamp of the confidence formula at 0 is never
exercised. -/
theorem wellFormed_noOverride_bounds (s : RiskScores)
    (hwf : WellFormed s) (h : NoOverride s) :
    (calculateVerdict s).weightedScore ≤ 5/2 ∧
    50/3 ≤ (calculateVerdict s).confidence ∧
    (calculateVerdict s).confidence = min 100 (100 - weightedScoreOf s / 3 * 100) := by
  obtain ⟨hw, hc⟩ := calculateVerdict_noOverride_fields s h
  obtain ⟨d1, d2, d3, d4, d5, d6⟩ := hwf
  obtain ⟨h1, h2, h3⟩ := h
  have b1 := d1.nonneg
  have b1' := d1.le_three
  have b2 := d2.nonneg
  have b2' := d2.le_three
  have b3 := d3.nonneg
  have b3' := d3.le_three
  have b4 := d4.nonneg
  have b4' := d4.le_two_of_lt_three h1
  have b5 := d5.nonneg
  have b5' := d5.le_three
  have b6 := d6.nonneg
  have b6' := d6.le_two_of_lt_three h3
  have hkey : s.irreversibility ≤ 2 ∨ s.external_impact ≤ 1 := by
    by_cases hirr : s.irreversibility ≥ 3
    · exact Or.inr (d2.le_one_of_lt_two fun hext => h2 ⟨hirr, hext⟩)
    · exact Or.inl (d1.le_two_of_lt_three hirr)
  have hle : weightedScoreOf s ≤ 5/2 := by
    unfold weightedScoreOf
    rcases hkey with hk | hk <;> linarith
  have hnn : 0 ≤ weightedScoreOf s := by
    unfold weightedScoreOf
    linarith
  have hv1 : 100 - weightedScoreOf s / 3 * 100 ≤ 100 := by linarith
  have hv2 : (50/3 : ℚ) ≤ 100 - weightedScoreOf s / 3 * 100 := by linarith
  have hconf : (calculateVerdict s).confidence = 100 - weightedScoreOf s / 3 * 100 := by
    rw [hc]
    unfold confidenceOf
    rw [min_eq_right hv1, max_eq_right (by linarith)]
  refine ⟨?_, ?_, ?_⟩
  · rw [hw]; exact hle
  · rw [hconf]; exact hv2
  · rw [hconf, min_eq_right hv1]

/-- Witness for claim C9 at the all-zero record. -/
theorem wellFormed_noOverride_bounds_witness :
    WellFormed (⟨0, 0, 0, 0, 0, 0⟩ : RiskScores) ∧
    NoOverride (⟨0, 0, 0, 0, 0, 0⟩ : RiskScores) ∧
    (calculateVerdict (⟨0, 0, 0, 0, 0, 0⟩ : RiskScores)).weightedScore ≤ 5/2 :=
  ⟨by decide, by decide,
    (wellFormed_noOverride_bounds ⟨0, 0, 0, 0, 0, 0⟩ (by decide) (by decide)).1⟩

/-- Claim C10: the two textually duplicated copies of the decision engine
in the concatenated source file are extensionally equal: they return
identical verdicts on every input. -/
theorem duplicate_engines_extensionally_equal (s : RiskScores) :
    calculateVerdict2 s = calculateVerdict s := rfl
